import Mathlib

/-!
Verification of the federated-computation notebook
(`notebooks/custom-federated-algorithms-part-1.ipynb`).

The notebook declares a handful of small computations on top of a
federated-computation framework.  We shallowly embed them here:

* federated values placed at the clients are plain Lean lists (one entry per
  member constituent, in client order);
* `float32` arithmetic is embedded as exact arithmetic over `ℚ`;
* `tff.federated_map` maps a local computation over the member constituents;
* `tff.federated_mean` without weights is the arithmetic mean, and with
  weights it is the weighted mean `Σ wᵢ·vᵢ / Σ wᵢ`;
* `tf.data.Dataset.reduce` is a left fold;
* `tf.math.top_k` with `k = 1` returns the index of the maximum entry,
  breaking ties toward the lower index (as documented for `tf.math.top_k`);
* `tf.tensor_scatter_nd_add` adds an update into a base tensor at an index.
-/

namespace FedNotebook

/-- `tff.federated_map`: applies a local computation to every member
constituent of a clients-placed federated value. -/
def federated_map {α β : Type} (f : α → β) (v : List α) : List β :=
  v.map f

/-- `tff.federated_mean` without a weight argument: the arithmetic mean of
the member constituents. -/
def federated_mean (v : List ℚ) : ℚ :=
  v.sum / (v.length : ℚ)

/-- `tff.federated_mean` with a weight argument: the weighted mean
`Σ wᵢ·vᵢ / Σ wᵢ` of the member constituents. -/
def federated_mean_weighted (v w : List ℚ) : ℚ :=
  (List.zipWith (fun a b => a * b) v w).sum / w.sum

/-- `compute_average_temperature(sensor_readings)`: the body is a single call
`tff.federated_mean(sensor_readings)`. -/
def compute_average_temperature (sensor_readings : List ℚ) : ℚ :=
  federated_mean sensor_readings

/-- `tf.abs` applied elementwise to a rank-1 tensor. -/
def tf_abs (l : List ℚ) : List ℚ :=
  l.map (fun g => |g|)

/-- The index returned by `tf.math.top_k(·, k=1)`: the index of the maximum
entry, with ties broken toward the lower index (per the `tf.math.top_k`
documentation, equal elements are ordered by lower index). -/
def top_k_1_index : List ℚ → Nat
  | [] => 0
  | [_] => 0
  | x :: xs =>
    if xs.getD (top_k_1_index xs) 0 > x then top_k_1_index xs + 1 else 0

/-- `tf.gather` of a single index from a rank-1 tensor. -/
def tf_gather_1 (l : List ℚ) (i : Nat) : ℚ :=
  l.getD i 0

/-- `tf.zeros_like` for a rank-1 tensor. -/
def zeros_like (l : List ℚ) : List ℚ :=
  l.map (fun _ => 0)

/-- `tf.tensor_scatter_nd_add` with a single index/update pair on a rank-1
base tensor: adds `update` to the entry of `base` at `index`. -/
def tensor_scatter_nd_add_1 (base : List ℚ) (index : Nat) (update : ℚ) : List ℚ :=
  (List.range base.length).map (fun j => base.getD j 0 + if j = index then update else 0)

/-- `top_1_compression(gradients)`:
`_, indices = tf.math.top_k(tf.abs(gradients), k=1)`;
`updates = tf.gather(gradients, indices)`;
`return tf.tensor_scatter_nd_add(tf.zeros_like(gradients), ..., updates)`. -/
def top_1_compression (gradients : List ℚ) : List ℚ :=
  let indices := top_k_1_index (tf_abs gradients)
  let updates := tf_gather_1 gradients indices
  tensor_scatter_nd_add_1 (zeros_like gradients) indices updates

/-- `federated_top_1_compression(gradients)`: the body is a single call
`tff.federated_map(top_1_compression, gradients)`. -/
def federated_top_1_compression (gradients : List (List ℚ)) : List (List ℚ) :=
  federated_map top_1_compression gradients

/-- The `tf.data.Dataset.reduce` call inside `compute_local_average`:
`temperatures.reduce((0.0, 0.0), lambda x, y: (x[0] + y, x[1] + 1))`,
accumulating a running `(total, n_obs)` pair from `(0.0, 0.0)`. -/
def local_average_reduce (temperatures : List ℚ) : ℚ × ℚ :=
  temperatures.foldl (fun x y => (x.1 + y, x.2 + 1)) ((0 : ℚ), (0 : ℚ))

/-- `compute_local_average(temperatures)`: runs the reduce above and returns
`total / n_obs` (no guard on the divisor). -/
def compute_local_average (temperatures : List ℚ) : ℚ :=
  let p := local_average_reduce temperatures
  p.1 / p.2

/-- `compute_number_obs(temperatures)`:
`size = temperatures.reduce(0.0, lambda x, _: x + 1)`. -/
def compute_number_obs (temperatures : List ℚ) : ℚ :=
  temperatures.foldl (fun x _ => x + 1) (0 : ℚ)

/-- `federated_local_average(sensor_readings)`:
`tff.federated_map(compute_local_average, sensor_readings)`. -/
def federated_local_average (sensor_readings : List (List ℚ)) : List ℚ :=
  federated_map compute_local_average sensor_readings

/-- `federated_number_obs(sensor_readings)`:
`tff.federated_map(compute_number_obs, sensor_readings)`. -/
def federated_number_obs (sensor_readings : List (List ℚ)) : List ℚ :=
  federated_map compute_number_obs sensor_readings

/-- `federated_global_average(sensor_readings)`:
`weights = federated_number_obs(sensor_readings)`;
`return tff.federated_mean(federated_local_average(sensor_readings), weights)`. -/
def federated_global_average (sensor_readings : List (List ℚ)) : ℚ :=
  let weights := federated_number_obs sensor_readings
  federated_mean_weighted (federated_local_average sensor_readings) weights

end FedNotebook

namespace FedNotebook

/-- C1 (counterexample): on the per-client sequences
`[[68.0, 70.0], [71.0], [68.0, 72.0, 70.0]]`, `federated_global_average`
does not return `70.0`: the weighted mean of the clients' local averages,
weighted by observation counts, is `419/6 ≈ 69.83`, not `70`. -/
theorem federated_global_average_not_seventy :
    federated_global_average [[68, 70], [71], [68, 72, 70]] ≠ 70 := by
  norm_num [federated_global_average, federated_number_obs, federated_local_average,
    federated_map, federated_mean_weighted, compute_number_obs, compute_local_average,
    local_average_reduce]

/-- C1 (amended): on the per-client sequences
`[[68.0, 70.0], [71.0], [68.0, 72.0, 70.0]]`, `federated_global_average`
returns `(2·69 + 71 + 3·70) / 6 = 419/6` — the weighted mean of the clients'
local averages `[69, 71, 70]`, in which each client's weight is the number
of observations in that client's sequence, the weights `[2, 1, 3]` being
produced by `federated_number_obs` / `compute_number_obs`. -/
theorem federated_global_average_weighted_value :
    federated_global_average [[68, 70], [71], [68, 72, 70]] = (2 * 69 + 71 + 3 * 70) / 6 ∧
    federated_number_obs [[68, 70], [71], [68, 72, 70]] = [2, 1, 3] ∧
    federated_local_average [[68, 70], [71], [68, 72, 70]] = [69, 71, 70] := by
  refine ⟨?_, ?_, ?_⟩ <;>
    norm_num [federated_global_average, federated_number_obs, federated_local_average,
      federated_map, federated_mean_weighted, compute_number_obs, compute_local_average,
      local_average_reduce]

/-- C2: `compute_average_temperature` on the client-held readings
`[2.3, 4.5, 6.7]` returns the arithmetic mean `(2.3 + 4.5 + 6.7) / 3`. -/
theorem compute_average_temperature_mean_example :
    compute_average_temperature [2.3, 4.5, 6.7] = (2.3 + 4.5 + 6.7) / 3 := by
  norm_num [compute_average_temperature, federated_mean]

/-- C3: `top_1_compression` on the gradient vector `[1, 2, 3, 4, -5]`
returns the same-length vector that is zero everywhere except at index 4
(the index of maximum absolute value), where it keeps the original value
`-5`. -/
theorem top_1_compression_example_value :
    top_1_compression [1, 2, 3, 4, -5] = [0, 0, 0, 0, -5] := by
  norm_num [top_1_compression, top_k_1_index, tf_abs, tf_gather_1, zeros_like,
    tensor_scatter_nd_add_1, List.range_succ]

end FedNotebook

namespace FedNotebook

/-- The reduce inside `compute_local_average` accumulates exactly the running
sum and the running count. -/
theorem local_average_reduce_foldl (l : List ℚ) (s n : ℚ) :
    l.foldl (fun x y => (x.1 + y, x.2 + 1)) (s, n) = (s + l.sum, n + l.length) := by
  induction l generalizing s n with
  | nil => simp
  | cons a t ih =>
    simp only [List.foldl_cons, ih, List.sum_cons, List.length_cons, Prod.mk.injEq]
    refine ⟨by ring, by push_cast; ring⟩

/-- `local_average_reduce` returns the pair (sum, length). -/
theorem local_average_reduce_eq (l : List ℚ) :
    local_average_reduce l = (l.sum, (l.length : ℚ)) := by
  rw [local_average_reduce, local_average_reduce_foldl]
  simp

/-- The reduce inside `compute_number_obs` counts the elements. -/
theorem count_foldl (l : List ℚ) (c : ℚ) :
    l.foldl (fun x _ => x + 1) c = c + l.length := by
  induction l generalizing c with
  | nil => simp
  | cons a t ih =>
    simp only [List.foldl_cons, ih, List.length_cons]
    push_cast; ring

/-- `compute_number_obs` returns the length of its input sequence. -/
theorem compute_number_obs_eq (l : List ℚ) :
    compute_number_obs l = (l.length : ℚ) := by
  simp [compute_number_obs, count_foldl]

/-- `compute_local_average` returns sum divided by length. -/
theorem compute_local_average_eq (l : List ℚ) :
    compute_local_average l = l.sum / (l.length : ℚ) := by
  simp [compute_local_average, local_average_reduce_eq]

/-- Zipping two maps over the same list is a single map. -/
theorem zipWith_map_same {α β γ δ : Type} (f : β → γ → δ) (g : α → β) (h : α → γ)
    (l : List α) :
    List.zipWith f (l.map g) (l.map h) = l.map (fun x => f (g x) (h x)) := by
  induction l with
  | nil => rfl
  | cons a t ih => simp [ih]

/-- C4: for every non-empty list of non-empty per-client sequences,
`federated_global_average` — the weighted average of the clients' local
averages, weighted by observation counts — equals the plain arithmetic mean
of the concatenation of all the clients' sequences, over exact rational
arithmetic. -/
theorem federated_global_average_eq_global_mean (sensor_readings : List (List ℚ))
    (_hne : sensor_readings ≠ []) (hc : ∀ c ∈ sensor_readings, c ≠ []) :
    federated_global_average sensor_readings =
      sensor_readings.flatten.sum / (sensor_readings.flatten.length : ℚ) := by
  unfold federated_global_average federated_mean_weighted federated_local_average
    federated_number_obs federated_map
  dsimp only
  rw [zipWith_map_same]
  have hnum : sensor_readings.map (fun c => compute_local_average c * compute_number_obs c)
      = sensor_readings.map List.sum := by
    apply List.map_congr_left
    intro c hcmem
    have hlen : (c.length : ℚ) ≠ 0 := by
      have : c.length ≠ 0 := fun h => (hc c hcmem) (List.length_eq_zero.mp h)
      exact_mod_cast this
    rw [compute_local_average_eq, compute_number_obs_eq, div_mul_cancel₀ _ hlen]
  have hden : sensor_readings.map compute_number_obs
      = sensor_readings.map (fun c => (c.length : ℚ)) := by
    apply List.map_congr_left
    intro c _
    exact compute_number_obs_eq c
  have hcast : ((sensor_readings.map List.length).sum : ℚ)
      = (sensor_readings.map (fun c => (c.length : ℚ))).sum := by
    rw [Nat.cast_list_sum, List.map_map]
    rfl
  rw [hnum, hden, List.sum_flatten, List.length_flatten, hcast]

/-- C4 witness: the theorem applied to the concrete input `[[1], [2, 3]]`. -/
theorem federated_global_average_eq_global_mean_witness :
    ([[(1 : ℚ)], [2, 3]] ≠ ([] : List (List ℚ))) ∧
    (∀ c ∈ [[(1 : ℚ)], [2, 3]], c ≠ []) ∧
    federated_global_average [[(1 : ℚ)], [2, 3]] =
      ([[(1 : ℚ)], [2, 3]] : List (List ℚ)).flatten.sum /
        ((([[(1 : ℚ)], [2, 3]] : List (List ℚ)).flatten.length : ℕ) : ℚ) :=
  ⟨by decide, by decide,
    federated_global_average_eq_global_mean [[(1 : ℚ)], [2, 3]] (by decide) (by decide)⟩

/-- C7: `compute_local_average` needs a non-empty input: its reduce starts
from the pair `(0.0, 0.0)`, the final step divides total by count with no
guard, on the empty sequence the division `0.0 / 0.0` is reached, and the
divisor is zero exactly when the non-emptiness precondition is violated
(the count equals the input's length). -/
theorem compute_local_average_requires_nonempty :
    local_average_reduce [] = ((0 : ℚ), (0 : ℚ)) ∧
    compute_local_average [] = (0 : ℚ) / (0 : ℚ) ∧
    (∀ l : List ℚ, (local_average_reduce l).2 = (l.length : ℚ)) ∧
    (∀ l : List ℚ, ((local_average_reduce l).2 = 0 ↔ l = [])) := by
  refine ⟨rfl, rfl, fun l => by rw [local_average_reduce_eq], fun l => ?_⟩
  rw [local_average_reduce_eq]
  simp [List.length_eq_zero]

/-- C7 witness: the divisor-tracking parts of the theorem at concrete
inputs. -/
theorem compute_local_average_requires_nonempty_witness :
    (local_average_reduce [(1 : ℚ), 2]).2 = ((([(1 : ℚ), 2] : List ℚ).length : ℕ) : ℚ) ∧
    ((local_average_reduce ([] : List ℚ)).2 = 0 ↔ ([] : List ℚ) = []) :=
  ⟨compute_local_average_requires_nonempty.2.2.1 [(1 : ℚ), 2],
    compute_local_average_requires_nonempty.2.2.2 []⟩

end FedNotebook

namespace FedNotebook

/-- Indexing a mapped list below its length, with arbitrary defaults. -/
theorem getD_map_of_lt {α β : Type} (f : α → β) (l : List α) (i : Nat)
    (h : i < l.length) (d : β) (e : α) :
    (l.map f).getD i d = f (l.getD i e) := by
  induction l generalizing i with
  | nil => simp at h
  | cons a t ih =>
    cases i with
    | zero => rfl
    | succ n =>
      simp only [List.map_cons, List.getD_cons_succ]
      exact ih n (by simpa using h)

/-- Indexing `List.range` below its length. -/
theorem getD_range_of_lt (n i : Nat) (h : i < n) (d : Nat) :
    (List.range n).getD i d = i := by
  simp [List.getD_eq_getElem?_getD, List.getElem?_range, h]

/-- C5: `federated_top_1_compression` is exactly the elementwise map of the
local computation `top_1_compression` over the member constituents: it
preserves the number and order of clients and applies `top_1_compression`
to each client's vector independently. -/
theorem federated_top_1_compression_is_map (gradients : List (List ℚ)) :
    federated_top_1_compression gradients = gradients.map top_1_compression ∧
    (federated_top_1_compression gradients).length = gradients.length ∧
    ∀ i, i < gradients.length →
      (federated_top_1_compression gradients).getD i [] =
        top_1_compression (gradients.getD i []) := by
  refine ⟨rfl, by simp [federated_top_1_compression, federated_map], fun i hi => ?_⟩
  simp only [federated_top_1_compression, federated_map]
  exact getD_map_of_lt top_1_compression gradients i hi [] []

/-- C5 witness: the theorem applied to a concrete two-client input. -/
theorem federated_top_1_compression_is_map_witness :
    federated_top_1_compression [[(1 : ℚ)], [2, -3]] =
      List.map top_1_compression [[(1 : ℚ)], [2, -3]] ∧
    (federated_top_1_compression [[(1 : ℚ)], [2, -3]]).getD 1 [] =
      top_1_compression (([[(1 : ℚ)], [2, -3]] : List (List ℚ)).getD 1 []) :=
  ⟨(federated_top_1_compression_is_map [[(1 : ℚ)], [2, -3]]).1,
    (federated_top_1_compression_is_map [[(1 : ℚ)], [2, -3]]).2.2 1 (by decide)⟩

/-- The index chosen by `tf.math.top_k(·, k=1)` is in bounds for a non-empty
input. -/
theorem top_k_1_index_lt (l : List ℚ) (h : l ≠ []) : top_k_1_index l < l.length := by
  induction l with
  | nil => exact absurd rfl h
  | cons x xs ih =>
    cases xs with
    | nil => simp [top_k_1_index]
    | cons y t =>
      simp only [top_k_1_index]
      split
      · exact Nat.succ_lt_succ (ih (by simp))
      · simp

/-- The entry at the index chosen by `tf.math.top_k(·, k=1)` dominates every
entry of the input. -/
theorem top_k_1_index_is_max (l : List ℚ) :
    ∀ j, j < l.length → l.getD j 0 ≤ l.getD (top_k_1_index l) 0 := by
  induction l with
  | nil => intro j hj; simp at hj
  | cons x xs ih =>
    cases xs with
    | nil =>
      intro j hj
      have hj0 : j = 0 := by simpa using Nat.lt_one_iff.mp (by simpa using hj)
      subst hj0
      simp [top_k_1_index]
    | cons y t =>
      intro j hj
      simp only [top_k_1_index]
      split
      case isTrue hgt =>
        rw [List.getD_cons_succ]
        cases j with
        | zero => rw [List.getD_cons_zero]; exact le_of_lt hgt
        | succ n =>
          rw [List.getD_cons_succ]
          exact ih n (by simpa using hj)
      case isFalse hle =>
        rw [List.getD_cons_zero]
        cases j with
        | zero => rw [List.getD_cons_zero]
        | succ n =>
          rw [List.getD_cons_succ]
          exact le_trans (ih n (by simpa using hj)) (not_lt.mp hle)

/-- Every entry strictly before the index chosen by `tf.math.top_k(·, k=1)`
is strictly smaller: ties are broken toward the earlier index. -/
theorem top_k_1_index_is_first (l : List ℚ) :
    ∀ j, j < top_k_1_index l → l.getD j 0 < l.getD (top_k_1_index l) 0 := by
  induction l with
  | nil => intro j hj; simp [top_k_1_index] at hj
  | cons x xs ih =>
    cases xs with
    | nil => intro j hj; simp [top_k_1_index] at hj
    | cons y t =>
      intro j hj
      by_cases hgt : (y :: t).getD (top_k_1_index (y :: t)) 0 > x
      · simp only [top_k_1_index, if_pos hgt] at hj ⊢
        rw [List.getD_cons_succ]
        cases j with
        | zero => rw [List.getD_cons_zero]; exact hgt
        | succ n =>
          rw [List.getD_cons_succ]
          exact ih n (Nat.lt_of_succ_lt_succ hj)
      · simp only [top_k_1_index, if_neg hgt] at hj
        exact absurd hj (Nat.not_lt_zero j)

end FedNotebook

namespace FedNotebook

/-- `top_1_compression` preserves the length of its input. -/
theorem top_1_compression_length (g : List ℚ) :
    (top_1_compression g).length = g.length := by
  simp [top_1_compression, tensor_scatter_nd_add_1, zeros_like]

/-- Entry formula for `top_1_compression`: in bounds, the output holds the
gathered update at the chosen index and zero elsewhere. -/
theorem top_1_compression_getD (g : List ℚ) (j : Nat) (hj : j < g.length) :
    (top_1_compression g).getD j 0 =
      if j = top_k_1_index (tf_abs g) then
        tf_gather_1 g (top_k_1_index (tf_abs g)) else 0 := by
  simp only [top_1_compression, tensor_scatter_nd_add_1]
  have hlen : (zeros_like g).length = g.length := by simp [zeros_like]
  rw [getD_map_of_lt _ (List.range (zeros_like g).length) j (by simpa [hlen] using hj) 0 0,
    getD_range_of_lt _ j (by simpa [hlen] using hj)]
  rw [zeros_like, getD_map_of_lt _ g j hj 0 0, zero_add]

/-- `tf_abs` preserves length. -/
theorem tf_abs_length (g : List ℚ) : (tf_abs g).length = g.length := by
  simp [tf_abs]

/-- Entry formula for `tf_abs`. -/
theorem tf_abs_getD (g : List ℚ) (j : Nat) (hj : j < g.length) :
    (tf_abs g).getD j 0 = |g.getD j 0| := by
  rw [tf_abs, getD_map_of_lt _ g j hj 0 0]

/-- C6: for every non-empty input vector, `top_1_compression` returns a
vector of the same length that is zero at every index except the chosen one;
at that index it equals the input's value, and the chosen index — in bounds —
is the smallest index attaining the maximum absolute value of the input
(ties in magnitude are broken toward the earlier index). -/
theorem top_1_compression_characterization (g : List ℚ) (h : g ≠ []) :
    (top_1_compression g).length = g.length ∧
    top_k_1_index (tf_abs g) < g.length ∧
    (top_1_compression g).getD (top_k_1_index (tf_abs g)) 0
      = g.getD (top_k_1_index (tf_abs g)) 0 ∧
    (∀ j, j < g.length → j ≠ top_k_1_index (tf_abs g) →
      (top_1_compression g).getD j 0 = 0) ∧
    (∀ j, j < g.length → |g.getD j 0| ≤ |g.getD (top_k_1_index (tf_abs g)) 0|) ∧
    (∀ j, j < top_k_1_index (tf_abs g) →
      |g.getD j 0| < |g.getD (top_k_1_index (tf_abs g)) 0|) := by
  have habs : tf_abs g ≠ [] := by
    intro hnil
    exact h (List.map_eq_nil_iff.mp hnil)
  have hi : top_k_1_index (tf_abs g) < g.length := by
    have := top_k_1_index_lt (tf_abs g) habs
    rwa [tf_abs_length] at this
  refine ⟨top_1_compression_length g, hi, ?_, ?_, ?_, ?_⟩
  · rw [top_1_compression_getD g _ hi, if_pos rfl, tf_gather_1]
  · intro j hj hne
    rw [top_1_compression_getD g j hj, if_neg hne]
  · intro j hj
    have := top_k_1_index_is_max (tf_abs g) j (by rwa [tf_abs_length])
    rwa [tf_abs_getD g j hj, tf_abs_getD g _ hi] at this
  · intro j hj
    have hjlen : j < g.length := lt_trans hj hi
    have := top_k_1_index_is_first (tf_abs g) j hj
    rwa [tf_abs_getD g j hjlen, tf_abs_getD g _ hi] at this

/-- C6 witness: the theorem applied to the concrete input `[1, -3, 3]`,
whose maximum magnitude 3 is attained first at index 1. -/
theorem top_1_compression_characterization_witness :
    ([(1 : ℚ), -3, 3] ≠ ([] : List ℚ)) ∧
    (top_1_compression [(1 : ℚ), -3, 3]).length = ([(1 : ℚ), -3, 3] : List ℚ).length ∧
    top_k_1_index (tf_abs [(1 : ℚ), -3, 3]) < ([(1 : ℚ), -3, 3] : List ℚ).length :=
  ⟨by decide, (top_1_compression_characterization [(1 : ℚ), -3, 3] (by decide)).1,
    (top_1_compression_characterization [(1 : ℚ), -3, 3] (by decide)).2.1⟩

end FedNotebook

namespace FedNotebook

/-- The two placement literals `tff.CLIENTS` and `tff.SERVER`. -/
inductive Placement where
  | CLIENTS
  | SERVER
deriving DecidableEq

mutual

/-- The TFF type grammar used by the notebook: tensor types
(`tff.TensorType`, with a dtype and a shape whose dimensions may be
unknown), named tuples (`tff.NamedTupleType`), federated types
(`tff.FederatedType`, the only constructor carrying a placement, with an
optional all-equal flag defaulting to false), sequences
(`tff.SequenceType`), and function signatures (the types of computations,
which carry no placement of their own). -/
inductive TffType where
  | tensor (dtype : String) (shape : List (Option Nat))
  | namedTuple (elems : TffTypeList)
  | federated (member : TffType) (placement : Placement) (all_equal : Bool)
  | sequence (elem : TffType)
  | function (param : TffType) (result : TffType)

/-- The (possibly named) element list of a `tff.NamedTupleType`. -/
inductive TffTypeList where
  | nil
  | cons (name : Option String) (ty : TffType) (rest : TffTypeList)

end

mutual

/-- All placement tags occurring anywhere inside a TFF type. -/
def TffType.placements : TffType → List Placement
  | .tensor _ _ => []
  | .namedTuple elems => elems.placements
  | .federated m p _ => p :: m.placements
  | .sequence e => e.placements
  | .function p r => p.placements ++ r.placements

/-- All placement tags occurring inside a named-tuple element list. -/
def TffTypeList.placements : TffTypeList → List Placement
  | .nil => []
  | .cons _ t rest => t.placements ++ rest.placements

end

/-- Whether a TFF type is a function signature (an operation type). -/
def TffType.isFunction : TffType → Bool
  | .function _ _ => true
  | _ => false

mutual

/-- Every placement inside the type is attached, via the federated-type
constructor, to a value (non-function) member type — never to an
operation. -/
def TffType.placementsOnValuesOnly : TffType → Bool
  | .tensor _ _ => true
  | .namedTuple elems => elems.placementsOnValuesOnly
  | .federated m _ _ => !m.isFunction && m.placementsOnValuesOnly
  | .sequence e => e.placementsOnValuesOnly
  | .function p r => p.placementsOnValuesOnly && r.placementsOnValuesOnly

/-- `TffType.placementsOnValuesOnly` over a named-tuple element list. -/
def TffTypeList.placementsOnValuesOnly : TffTypeList → Bool
  | .nil => true
  | .cons _ t rest => t.placementsOnValuesOnly && rest.placementsOnValuesOnly

end

/-- The scalar `tf.float32` type (`tff.TensorType(tf.float32, shape=[])`). -/
def float32 : TffType := .tensor "float32" []

/-- `temperature_type = tff.FederatedType(member=tf.float32, placement=tff.CLIENTS)`. -/
def temperature_type : TffType := .federated float32 .CLIENTS false

/-- `hyperparameter_type = tff.FederatedType(member=tf.float32, placement=tff.CLIENTS, all_equal=True)`. -/
def hyperparameter_type : TffType := .federated float32 .CLIENTS true

/-- `linear_regression_type = tff.NamedTupleType([('m', tf.float32), ('b', tf.float32)])`. -/
def linear_regression_type : TffType :=
  .namedTuple (.cons (some "m") float32 (.cons (some "b") float32 .nil))

/-- `model_parameters = tff.FederatedType(linear_regression_type, tff.CLIENTS, all_equal=True)`. -/
def model_parameters : TffType := .federated linear_regression_type .CLIENTS true

/-- `SENSOR_READINGS_TYPE = tff.FederatedType(member=tf.float32, placement=tff.CLIENTS)`. -/
def SENSOR_READINGS_TYPE : TffType := .federated float32 .CLIENTS false

/-- `COMPRESSOR_TYPE = tff.TensorType(tf.float32, shape=(None,))`. -/
def COMPRESSOR_TYPE : TffType := .tensor "float32" [none]

/-- The decorator argument of `federated_top_1_compression`:
`tff.FederatedType(COMPRESSOR_TYPE, tff.CLIENTS)`. -/
def federated_compressor_type : TffType := .federated COMPRESSOR_TYPE .CLIENTS false

/-- `tff.SequenceType(tf.float32)`, also the decorator argument of
`compute_local_average` and `compute_number_obs`. -/
def float_sequence_type : TffType := .sequence float32

/-- The decorator argument of `federated_local_average`,
`federated_number_obs` and `federated_global_average`:
`tff.FederatedType(tff.SequenceType(tf.float32), tff.CLIENTS)`. -/
def federated_sequence_type : TffType := .federated float_sequence_type .CLIENTS false

/-- Every type the notebook declares by an explicit constructor call. -/
def notebookDeclaredTypes : List TffType :=
  [temperature_type, hyperparameter_type, linear_regression_type, model_parameters,
    SENSOR_READINGS_TYPE, COMPRESSOR_TYPE, federated_compressor_type,
    float_sequence_type, federated_sequence_type]

/-- Every placement tag attached anywhere in the notebook's declared
types. -/
def notebookPlacements : List Placement :=
  (notebookDeclaredTypes.map TffType.placements).flatten

end FedNotebook

namespace FedNotebook

/-- C8 (counterexample): the server literal is attached to no data type
declared in the notebook — every declared placement is the clients literal —
so it is false that both placement literals are used in the notebook's type
declarations. -/
theorem server_placement_never_declared :
    Placement.CLIENTS ∈ notebookPlacements ∧ Placement.SERVER ∉ notebookPlacements := by
  decide

/-- C8 (amended): every distribution-placement tag attached to a data type
declared in the notebook is one of the two placement literals — in fact it
is always the multi-party clients literal, the single-server literal never
appearing in a declaration — and placements are attached only to value
types via the federated-type constructor (optionally with an all-equal
flag), never to an operation (a function signature). -/
theorem notebook_placements_clients_only :
    (∀ p ∈ notebookPlacements, p = Placement.CLIENTS) ∧
    Placement.CLIENTS ∈ notebookPlacements ∧
    (∀ t ∈ notebookDeclaredTypes,
      t.placementsOnValuesOnly = true ∧ t.isFunction = false) := by
  refine ⟨?_, by decide, ?_⟩ <;> decide

/-- C8 witness: the amended theorem instantiated at the clients literal and
at the declared `temperature_type`. -/
theorem notebook_placements_clients_only_witness :
    (Placement.CLIENTS ∈ notebookPlacements ∧ Placement.CLIENTS = Placement.CLIENTS) ∧
    (temperature_type ∈ notebookDeclaredTypes ∧
      temperature_type.placementsOnValuesOnly = true ∧
      temperature_type.isFunction = false) :=
  ⟨⟨notebook_placements_clients_only.2.1,
      notebook_placements_clients_only.1 Placement.CLIENTS
        notebook_placements_clients_only.2.1⟩,
    ⟨by simp [notebookDeclaredTypes],
      notebook_placements_clients_only.2.2 temperature_type
        (by simp [notebookDeclaredTypes])⟩⟩

end FedNotebook

namespace FedNotebook

/-- A value fed to or returned by a notebook computation when it is invoked
directly as a Python callable: federated values with `all_equal=False` are
fed as plain lists, sequences as lists, scalars as single values. -/
inductive TffValue where
  | unit
  | str (s : String)
  | num (q : ℚ)
  | numList (l : List ℚ)
  | numListList (l : List (List ℚ))
deriving DecidableEq

/-- The computations the notebook declares (with `tff.federated_computation`
or `tff.tf_computation`). -/
inductive NotebookComputation where
  | hello_world
  | compute_average_temperature
  | top_1_compression
  | federated_top_1_compression
  | compute_local_average
  | compute_number_obs
  | federated_local_average
  | federated_number_obs
  | federated_global_average
deriving DecidableEq

/-- Invoking a declared computation, threading an arbitrary ambient state
`σ` through the call.  Each branch is the translation of the corresponding
notebook body; none of those bodies reads or writes anything outside its own
argument and result, so the state passes through untouched.  Feeding a value
of the wrong type is a framework type error, modelled as `none`. -/
def invoke (σ : Type) (c : NotebookComputation) (x : TffValue) (s : σ) :
    Option TffValue × σ :=
  match c, x with
  | .hello_world, .unit => (some (.str "Hello, World!"), s)
  | .compute_average_temperature, .numList v =>
    (some (.num (compute_average_temperature v)), s)
  | .top_1_compression, .numList v => (some (.numList (top_1_compression v)), s)
  | .federated_top_1_compression, .numListList v =>
    (some (.numListList (federated_top_1_compression v)), s)
  | .compute_local_average, .numList v => (some (.num (compute_local_average v)), s)
  | .compute_number_obs, .numList v => (some (.num (compute_number_obs v)), s)
  | .federated_local_average, .numListList v =>
    (some (.numList (federated_local_average v)), s)
  | .federated_number_obs, .numListList v =>
    (some (.numList (federated_number_obs v)), s)
  | .federated_global_average, .numListList v =>
    (some (.num (federated_global_average v)), s)
  | _, _ => (none, s)

/-- C9: every computation the notebook declares is deterministic and free of
shared mutable state: invoking it twice with equal in-memory inputs — even
from different ambient states — yields equal results, and an invocation
leaves the ambient state exactly as it found it. -/
theorem notebook_invocations_pure (σ : Type) (c : NotebookComputation)
    (x y : TffValue) (s₁ s₂ : σ) (hxy : x = y) :
    (invoke σ c x s₁).1 = (invoke σ c y s₂).1 ∧ (invoke σ c x s₁).2 = s₁ := by
  subst hxy
  cases c <;> cases x <;> exact ⟨rfl, rfl⟩

/-- C9 witness: two invocations of `compute_number_obs` on the same literal
input from distinct ambient states. -/
theorem notebook_invocations_pure_witness :
    (TffValue.numList [1, 2, 3] = TffValue.numList [1, 2, 3]) ∧
    ((invoke Nat .compute_number_obs (.numList [1, 2, 3]) 5).1
        = (invoke Nat .compute_number_obs (.numList [1, 2, 3]) 7).1 ∧
      (invoke Nat .compute_number_obs (.numList [1, 2, 3]) 5).2 = 5) :=
  ⟨rfl, notebook_invocations_pure Nat .compute_number_obs
    (.numList [1, 2, 3]) (.numList [1, 2, 3]) 5 7 rfl⟩

end FedNotebook

namespace FedNotebook

/-- The framework and TensorFlow primitives called by the notebook's
computations, abstracted over their implementation and over the error type
`E` any of them may fail with.  The notebook's own code only composes these
calls. -/
structure Framework (E : Type) where
  federated_mean1 : List ℚ → Except E ℚ
  federated_mean2 : List ℚ → List ℚ → Except E ℚ
  tf_abs : List ℚ → Except E (List ℚ)
  top_k : List ℚ → Nat → Except E (List ℚ × Nat)
  gather : List ℚ → Nat → Except E ℚ
  zeros_like : List ℚ → Except E (List ℚ)
  scatter_nd_add : List ℚ → Nat → ℚ → Except E (List ℚ)
  reduce : {α : Type} → List ℚ → α → (α → ℚ → α) → Except E α
  div : ℚ → ℚ → Except E ℚ

/-- `tff.federated_map` in the fallible setting: runs the local computation
on every member constituent, propagating the first failure. -/
def federated_mapE {E α β : Type} (f : α → Except E β) (v : List α) :
    Except E (List β) :=
  v.mapM f

/-- `compute_average_temperature` with its framework call abstracted. -/
def compute_average_temperatureE {E : Type} (F : Framework E)
    (sensor_readings : List ℚ) : Except E ℚ :=
  F.federated_mean1 sensor_readings

/-- `top_1_compression` with its TensorFlow calls abstracted. -/
def top_1_compressionE {E : Type} (F : Framework E) (gradients : List ℚ) :
    Except E (List ℚ) := do
  let a ← F.tf_abs gradients
  let vi ← F.top_k a 1
  let updates ← F.gather gradients vi.2
  let z ← F.zeros_like gradients
  F.scatter_nd_add z vi.2 updates

/-- `federated_top_1_compression` with its calls abstracted. -/
def federated_top_1_compressionE {E : Type} (F : Framework E)
    (gradients : List (List ℚ)) : Except E (List (List ℚ)) :=
  federated_mapE (top_1_compressionE F) gradients

/-- `compute_local_average` with its calls abstracted. -/
def compute_local_averageE {E : Type} (F : Framework E) (temperatures : List ℚ) :
    Except E ℚ := do
  let p ← F.reduce temperatures ((0 : ℚ), (0 : ℚ)) (fun x y => (x.1 + y, x.2 + 1))
  F.div p.1 p.2

/-- `compute_number_obs` with its calls abstracted. -/
def compute_number_obsE {E : Type} (F : Framework E) (temperatures : List ℚ) :
    Except E ℚ :=
  F.reduce temperatures (0 : ℚ) (fun x _ => x + 1)

/-- `federated_local_average` with its calls abstracted. -/
def federated_local_averageE {E : Type} (F : Framework E)
    (sensor_readings : List (List ℚ)) : Except E (List ℚ) :=
  federated_mapE (compute_local_averageE F) sensor_readings

/-- `federated_number_obs` with its calls abstracted. -/
def federated_number_obsE {E : Type} (F : Framework E)
    (sensor_readings : List (List ℚ)) : Except E (List ℚ) :=
  federated_mapE (compute_number_obsE F) sensor_readings

/-- `federated_global_average` with its calls abstracted. -/
def federated_global_averageE {E : Type} (F : Framework E)
    (sensor_readings : List (List ℚ)) : Except E ℚ := do
  let weights ← federated_number_obsE F sensor_readings
  let la ← federated_local_averageE F sensor_readings
  F.federated_mean2 la weights

/-- `hello_world`: returns a string literal, calling nothing. -/
def hello_worldE {E : Type} (_F : Framework E) : Except E String :=
  Except.ok "Hello, World!"

/-- Post-composing every primitive of a framework with an error
transformation. -/
def Framework.mapError {E E' : Type} (φ : E → E') (F : Framework E) :
    Framework E' where
  federated_mean1 v := (F.federated_mean1 v).mapError φ
  federated_mean2 v w := (F.federated_mean2 v w).mapError φ
  tf_abs l := (F.tf_abs l).mapError φ
  top_k l k := (F.top_k l k).mapError φ
  gather l i := (F.gather l i).mapError φ
  zeros_like l := (F.zeros_like l).mapError φ
  scatter_nd_add l i u := (F.scatter_nd_add l i u).mapError φ
  reduce l a f := (F.reduce l a f).mapError φ
  div a b := (F.div a b).mapError φ

/-- Binding after an error transformation equals transforming the bound
computation, when the continuations agree pointwise. -/
theorem mapError_bind {E E' α β : Type} (φ : E → E') (x : Except E α)
    (f : α → Except E β) (g : α → Except E' β)
    (hfg : ∀ a, g a = (f a).mapError φ) :
    (x.mapError φ >>= g) = (x >>= f).mapError φ := by
  cases x with
  | error e => rfl
  | ok a => exact hfg a

/-- `List.mapM` over `Except` is natural in the error type. -/
theorem mapError_mapM {E E' α β : Type} (φ : E → E') (f : α → Except E β)
    (g : α → Except E' β) (hfg : ∀ a, g a = (f a).mapError φ) (l : List α) :
    l.mapM g = (l.mapM f).mapError φ := by
  induction l with
  | nil => rfl
  | cons a t ih =>
    rw [List.mapM_cons, List.mapM_cons, hfg a]
    refine mapError_bind φ (f a) _ _ (fun b => ?_)
    rw [ih]
    refine mapError_bind φ (t.mapM f) _ _ (fun bs => ?_)
    rfl

end FedNotebook

namespace FedNotebook

/-- `compute_average_temperature` is natural in the error type. -/
theorem compute_average_temperatureE_mapError {E E' : Type} (φ : E → E')
    (F : Framework E) (v : List ℚ) :
    compute_average_temperatureE (F.mapError φ) v
      = (compute_average_temperatureE F v).mapError φ :=
  rfl

/-- `top_1_compression` is natural in the error type. -/
theorem top_1_compressionE_mapError {E E' : Type} (φ : E → E')
    (F : Framework E) (g : List ℚ) :
    top_1_compressionE (F.mapError φ) g = (top_1_compressionE F g).mapError φ := by
  simp only [top_1_compressionE, Framework.mapError]
  refine mapError_bind φ (F.tf_abs g) _ _ (fun a => ?_)
  refine mapError_bind φ (F.top_k a 1) _ _ (fun vi => ?_)
  refine mapError_bind φ (F.gather g vi.2) _ _ (fun updates => ?_)
  refine mapError_bind φ (F.zeros_like g) _ _ (fun z => ?_)
  rfl

/-- `federated_top_1_compression` is natural in the error type. -/
theorem federated_top_1_compressionE_mapError {E E' : Type} (φ : E → E')
    (F : Framework E) (gs : List (List ℚ)) :
    federated_top_1_compressionE (F.mapError φ) gs
      = (federated_top_1_compressionE F gs).mapError φ := by
  simp only [federated_top_1_compressionE, federated_mapE]
  exact mapError_mapM φ _ _ (top_1_compressionE_mapError φ F) gs

/-- `compute_local_average` is natural in the error type. -/
theorem compute_local_averageE_mapError {E E' : Type} (φ : E → E')
    (F : Framework E) (t : List ℚ) :
    compute_local_averageE (F.mapError φ) t
      = (compute_local_averageE F t).mapError φ := by
  simp only [compute_local_averageE, Framework.mapError]
  refine mapError_bind φ (F.reduce t ((0 : ℚ), (0 : ℚ)) _) _ _ (fun p => ?_)
  rfl

/-- `compute_number_obs` is natural in the error type. -/
theorem compute_number_obsE_mapError {E E' : Type} (φ : E → E')
    (F : Framework E) (t : List ℚ) :
    compute_number_obsE (F.mapError φ) t
      = (compute_number_obsE F t).mapError φ :=
  rfl

/-- `federated_local_average` is natural in the error type. -/
theorem federated_local_averageE_mapError {E E' : Type} (φ : E → E')
    (F : Framework E) (sr : List (List ℚ)) :
    federated_local_averageE (F.mapError φ) sr
      = (federated_local_averageE F sr).mapError φ := by
  simp only [federated_local_averageE, federated_mapE]
  exact mapError_mapM φ _ _ (compute_local_averageE_mapError φ F) sr

/-- `federated_number_obs` is natural in the error type. -/
theorem federated_number_obsE_mapError {E E' : Type} (φ : E → E')
    (F : Framework E) (sr : List (List ℚ)) :
    federated_number_obsE (F.mapError φ) sr
      = (federated_number_obsE F sr).mapError φ := by
  simp only [federated_number_obsE, federated_mapE]
  exact mapError_mapM φ _ _ (compute_number_obsE_mapError φ F) sr

/-- `federated_global_average` is natural in the error type. -/
theorem federated_global_averageE_mapError {E E' : Type} (φ : E → E')
    (F : Framework E) (sr : List (List ℚ)) :
    federated_global_averageE (F.mapError φ) sr
      = (federated_global_averageE F sr).mapError φ := by
  simp only [federated_global_averageE, federated_number_obsE_mapError φ F sr]
  refine mapError_bind φ (federated_number_obsE F sr) _ _ (fun w => ?_)
  rw [federated_local_averageE_mapError φ F sr]
  refine mapError_bind φ (federated_local_averageE F sr) _ _ (fun la => ?_)
  rfl

/-- C10: none of the notebook's computations contains an error-handling or
retry branch of its own.  Each computation is natural in the framework's
error type: running it against the framework with every primitive's errors
transformed by `φ` gives exactly the original result with its error (if
any) transformed by `φ`.  So every failure a computation can return
originates in a framework primitive and is propagated unchanged — no
notebook function catches, transforms, or itself raises an error (a
computation that raised, caught, or rewrote errors of its own would break
this equation for some `φ`). -/
theorem notebook_computations_no_error_handling :
    ∀ (E E' : Type) (φ : E → E') (F : Framework E),
      (∀ v, compute_average_temperatureE (F.mapError φ) v
          = (compute_average_temperatureE F v).mapError φ) ∧
      (∀ g, top_1_compressionE (F.mapError φ) g
          = (top_1_compressionE F g).mapError φ) ∧
      (∀ gs, federated_top_1_compressionE (F.mapError φ) gs
          = (federated_top_1_compressionE F gs).mapError φ) ∧
      (∀ t, compute_local_averageE (F.mapError φ) t
          = (compute_local_averageE F t).mapError φ) ∧
      (∀ t, compute_number_obsE (F.mapError φ) t
          = (compute_number_obsE F t).mapError φ) ∧
      (∀ sr, federated_local_averageE (F.mapError φ) sr
          = (federated_local_averageE F sr).mapError φ) ∧
      (∀ sr, federated_number_obsE (F.mapError φ) sr
          = (federated_number_obsE F sr).mapError φ) ∧
      (∀ sr, federated_global_averageE (F.mapError φ) sr
          = (federated_global_averageE F sr).mapError φ) ∧
      hello_worldE (F.mapError φ) = (hello_worldE F).mapError φ :=
  fun _ _ φ F =>
    ⟨compute_average_temperatureE_mapError φ F,
      top_1_compressionE_mapError φ F,
      federated_top_1_compressionE_mapError φ F,
      compute_local_averageE_mapError φ F,
      compute_number_obsE_mapError φ F,
      federated_local_averageE_mapError φ F,
      federated_number_obsE_mapError φ F,
      federated_global_averageE_mapError φ F,
      rfl⟩

end FedNotebook
